import Mathlib

/-!
Verification of the billing/validity domain logic of the billeasy admin
application.  The embedded functions follow the code in
src/src/hooks/useSchoolData.tsx (validity computation and status
classification), src/src/hooks/usePaymentProcessing.tsx (effective-amount
computation and payment recording) and
src/src/components/school-details/PaymentDialog.tsx (payment preview).
Currency amounts and (fractional) day counts are modelled as rationals;
calendar dates are modelled as rational day numbers, so that adding
`daysOfValidity` calendar days is addition and the millisecond arithmetic
of the source collapses to day arithmetic.
-/

namespace Billeasy

/-- Result of the validity computation in useSchoolData: the number of days
the advance buys, the expiry date, the (possibly negative) days remaining
and the derived status label. -/
structure ValidityResult where
  daysOfValidity : ℤ
  validUntilDate : ℚ
  daysRemaining : ℤ
  paymentStatus : String
deriving DecidableEq

/-- Status classification from useSchoolData lines 137-143:
days > 30 gives "paid", else days > 10 gives "overdue", else "critical". -/
def statusOf (days : ℤ) : String :=
  if days > 30 then "paid" else if days > 10 then "overdue" else "critical"

/-- Validity computation from useSchoolData lines 118-143:
totalAnnualFees = studentCount * quotedPrice; pricePerDay =
totalAnnualFees / 365; daysOfValidity = floor(advancePaid / pricePerDay)
when pricePerDay > 0 and 0 otherwise; validUntilDate = advancePaidDate
plus daysOfValidity days; daysRemaining = ceil(validUntilDate - today). -/
def computeValidity (studentCount quotedPrice advancePaid advancePaidDate today : ℚ) :
    ValidityResult :=
  let totalAnnualFees := studentCount * quotedPrice
  let pricePerDay := totalAnnualFees / 365
  let daysOfValidity : ℤ := if pricePerDay > 0 then ⌊advancePaid / pricePerDay⌋ else 0
  let validUntilDate := advancePaidDate + (daysOfValidity : ℚ)
  let days : ℤ := ⌈validUntilDate - today⌉
  { daysOfValidity := daysOfValidity
    validUntilDate := validUntilDate
    daysRemaining := days
    paymentStatus := statusOf days }

/-- Division that records a division by zero (the source of Infinity and NaN
in the number semantics of the source language) as `none`. -/
def qdivChecked (a b : ℚ) : Option ℚ :=
  if b = 0 then none else some (a / b)

/-- Validity computation with every division checked: the result is `none`
exactly when some division by zero (hence a non-finite number) occurs. -/
def computeValidityChecked (studentCount quotedPrice advancePaid advancePaidDate today : ℚ) :
    Option ValidityResult :=
  (qdivChecked (studentCount * quotedPrice) 365).bind fun pricePerDay =>
    (if pricePerDay > 0 then (qdivChecked advancePaid pricePerDay).map Int.floor
     else some 0).bind fun daysOfValidity =>
      let validUntilDate := advancePaidDate + (daysOfValidity : ℚ)
      let days : ℤ := ⌈validUntilDate - today⌉
      some { daysOfValidity := daysOfValidity
             validUntilDate := validUntilDate
             daysRemaining := days
             paymentStatus := statusOf days }

/-- Result of the effective-amount computation in processPayment. -/
structure EffectivePayment where
  effectiveAmount : ℚ
  excessCharge : ℚ
deriving DecidableEq

/-- Effective-amount computation from usePaymentProcessing lines 64-81:
when the special-case flag is set and both excess values are truthy
(nonzero), pricePerStudentPerDay = pricePerStudent / 365, excessCharge =
excessStudentCount * pricePerStudentPerDay * excessDays, and the effective
amount is max(0, amount - excessCharge); otherwise the amount passes
through unchanged. -/
def computeEffectivePayment (amount pricePerStudent : ℚ) (specialCase : Bool)
    (excessStudentCount excessDays : ℚ) : EffectivePayment :=
  if specialCase ∧ excessStudentCount ≠ 0 ∧ excessDays ≠ 0 then
    let pricePerStudentPerDay := pricePerStudent / 365
    let excessCharge := excessStudentCount * pricePerStudentPerDay * excessDays
    { effectiveAmount := max 0 (amount - excessCharge)
      excessCharge := excessCharge }
  else
    { effectiveAmount := amount
      excessCharge := 0 }

/-- Preview computation from PaymentDialog lines 84-91: the dialog always
clamps, and deducts the excess charge whenever the special-case flag is
set (the charge itself is zero when either excess value is zero). -/
def dialogEffectiveAmount (amount pricePerStudent : ℚ) (specialCase : Bool)
    (excessStudentCount excessDays : ℚ) : ℚ :=
  let pricePerStudentPerDay := pricePerStudent / 365
  let excessCharge := excessStudentCount * pricePerStudentPerDay * excessDays
  max 0 (amount - (if specialCase then excessCharge else 0))

/-- Form values submitted by PaymentDialog (PaymentFormValues). -/
structure PaymentFormValues where
  amount : ℚ
  description : String
  studentCount : ℚ
  pricePerStudent : ℚ
  specialCase : Bool
  excessStudentCount : ℚ
  excessDays : ℚ
deriving DecidableEq

/-- Billing record as stored in billing_info (fields relevant to
processPayment; advance_paid and advance_paid_date are nullable). -/
structure BillingInfo where
  quoted_price : ℚ
  total_installments : ℚ
  advance_paid : Option ℚ
  advance_paid_date : Option ℚ
deriving DecidableEq

/-- Row inserted into payment_logs by processPayment lines 122-138. -/
structure PaymentLogInsert where
  amount : ℚ
  payment_date : ℚ
  student_count : ℚ
  price_per_student : ℚ
  is_special_case : Bool
  excess_student_count : ℚ
  excess_days : ℚ
deriving DecidableEq

/-- Effective amount credited for a submitted payment form. -/
def effectiveAmountOf (data : PaymentFormValues) : ℚ :=
  (computeEffectivePayment data.amount data.pricePerStudent data.specialCase
    data.excessStudentCount data.excessDays).effectiveAmount

/-- State change performed by processPayment (lines 85-138): when no
billing record exists one is created with quoted_price =
data.pricePerStudent, advance_paid = effectiveAmount, advance_paid_date =
today and total_installments = 1; when one exists, quoted_price is
replaced by data.pricePerStudent only under the special-case flag,
advance_paid accumulates the effective amount and advance_paid_date is set
to today.  The appended payment log stores the raw amount. -/
def recordPayment (billingInfo : Option BillingInfo) (data : PaymentFormValues)
    (today : ℚ) : BillingInfo × PaymentLogInsert :=
  let effectiveAmount := effectiveAmountOf data
  let newBilling : BillingInfo :=
    match billingInfo with
    | none =>
        { quoted_price := data.pricePerStudent
          total_installments := 1
          advance_paid := some effectiveAmount
          advance_paid_date := some today }
    | some bi =>
        { quoted_price := if data.specialCase then data.pricePerStudent else bi.quoted_price
          total_installments := bi.total_installments
          advance_paid := some (bi.advance_paid.getD 0 + effectiveAmount)
          advance_paid_date := some today }
  let log : PaymentLogInsert :=
    { amount := data.amount
      payment_date := today
      student_count := data.studentCount
      price_per_student := data.pricePerStudent
      is_special_case := data.specialCase
      excess_student_count := data.excessStudentCount
      excess_days := data.excessDays }
  (newBilling, log)


/-- Sample billing record used to instantiate the frame theorems. -/
def sampleBilling : BillingInfo :=
  { quoted_price := 500
    total_installments := 3
    advance_paid := some 1000
    advance_paid_date := some 0 }

/-- Sample ordinary (non special case) payment form. -/
def samplePayment : PaymentFormValues :=
  { amount := 2000
    description := "April fees"
    studentCount := 100
    pricePerStudent := 365
    specialCase := false
    excessStudentCount := 0
    excessDays := 0 }

/-- Sample payment form with the special-case flag set but a zero excess
student count. -/
def sampleSpecialPayment : PaymentFormValues :=
  { amount := 2000
    description := "Special case payment"
    studentCount := 100
    pricePerStudent := 400
    specialCase := true
    excessStudentCount := 0
    excessDays := 7 }



/-- Helper: the checked validity computation never hits a division by zero
and agrees with the unchecked one, for arbitrary (also negative) inputs. -/
theorem computeValidityChecked_eq_some (sc qp ap d t : ℚ) :
    computeValidityChecked sc qp ap d t = some (computeValidity sc qp ap d t) := by
  have h365 : (365 : ℚ) ≠ 0 := by norm_num
  by_cases h : sc * qp / 365 > 0
  · simp [computeValidityChecked, computeValidity, qdivChecked, h365, h, ne_of_gt h]
  · simp [computeValidityChecked, computeValidity, qdivChecked, h365, h]

/-- Helper: a non-positive price per day yields zero days of validity. -/
theorem daysOfValidity_of_nonpos (sc qp ap d t : ℚ) (h : ¬ sc * qp / 365 > 0) :
    (computeValidity sc qp ap d t).daysOfValidity = 0 := by
  simp only [computeValidity, if_neg h]

/-- Claim C1: for all non-negative studentCount, quotedPrice and advancePaid
and all dates, computeValidity returns daysOfValidity =
floor(advancePaid / (studentCount * quotedPrice / 365)) when the price per
day is positive and 0 otherwise, validUntilDate = advancePaidDate plus
daysOfValidity days, and daysRemaining = ceil(validUntilDate - today),
with no clamping of negative values. -/
theorem computeValidity_matches_spec_formula (sc qp ap d t : ℚ)
    (hsc : 0 ≤ sc) (hqp : 0 ≤ qp) (hap : 0 ≤ ap) :
    (sc * qp / 365 > 0 →
      (computeValidity sc qp ap d t).daysOfValidity = ⌊ap / (sc * qp / 365)⌋) ∧
    (¬ sc * qp / 365 > 0 → (computeValidity sc qp ap d t).daysOfValidity = 0) ∧
    (computeValidity sc qp ap d t).validUntilDate =
      d + ((computeValidity sc qp ap d t).daysOfValidity : ℚ) ∧
    (computeValidity sc qp ap d t).daysRemaining =
      ⌈(computeValidity sc qp ap d t).validUntilDate - t⌉ := by
  refine ⟨fun h => ?_, fun h => ?_, rfl, rfl⟩
  · simp only [computeValidity, if_pos h]
  · simp only [computeValidity, if_neg h]

/-- Witness for C1 at the spec scenario studentCount = 100,
quotedPrice = 365, advancePaid = 3650. -/
theorem computeValidity_matches_spec_formula_witness :
    0 ≤ (100 : ℚ) ∧ 0 ≤ (365 : ℚ) ∧ 0 ≤ (3650 : ℚ) ∧
    (((100 : ℚ) * 365 / 365 > 0 →
        (computeValidity 100 365 3650 0 0).daysOfValidity =
          ⌊(3650 : ℚ) / (100 * 365 / 365)⌋) ∧
      (¬ (100 : ℚ) * 365 / 365 > 0 →
        (computeValidity 100 365 3650 0 0).daysOfValidity = 0) ∧
      (computeValidity 100 365 3650 0 0).validUntilDate =
        0 + ((computeValidity 100 365 3650 0 0).daysOfValidity : ℚ) ∧
      (computeValidity 100 365 3650 0 0).daysRemaining =
        ⌈(computeValidity 100 365 3650 0 0).validUntilDate - 0⌉) :=
  ⟨by norm_num, by norm_num, by norm_num,
    computeValidity_matches_spec_formula 100 365 3650 0 0
      (by norm_num) (by norm_num) (by norm_num)⟩

/-- Claim C2: the status classification is "paid" for daysRemaining > 30,
"overdue" for 10 < daysRemaining <= 30 and "critical" for
daysRemaining <= 10; in particular 31 gives "paid", 30 and 11 give
"overdue", 10 gives "critical", and the status returned by
computeValidity is exactly this classification of its daysRemaining. -/
theorem statusOf_thresholds (d : ℤ) (sc qp ap dt t : ℚ) :
    (30 < d → statusOf d = "paid") ∧
    (10 < d → d ≤ 30 → statusOf d = "overdue") ∧
    (d ≤ 10 → statusOf d = "critical") ∧
    statusOf 31 = "paid" ∧ statusOf 30 = "overdue" ∧ statusOf 11 = "overdue" ∧
    statusOf 10 = "critical" ∧
    (computeValidity sc qp ap dt t).paymentStatus =
      statusOf (computeValidity sc qp ap dt t).daysRemaining := by
  refine ⟨fun h => ?_, fun h1 h2 => ?_, fun h => ?_, by decide, by decide, by decide,
    by decide, rfl⟩
  · simp only [statusOf, if_pos h]
  · simp only [statusOf]
    rw [if_neg (by omega), if_pos h1]
  · simp only [statusOf]
    rw [if_neg (by omega), if_neg (by omega)]

/-- Witness for C2 at the boundary value 31. -/
theorem statusOf_thresholds_witness :
    (30 : ℤ) < 31 ∧ statusOf 31 = "paid" :=
  ⟨by decide, (statusOf_thresholds 31 0 0 0 0 0).1 (by decide)⟩

/-- Claim C3: for a special-case payment with both excess values positive,
the effective amount equals max(0, amount - excessStudentCount *
(pricePerStudent / 365) * excessDays), is never negative, and the dialog
preview computes the same value. -/
theorem computeEffectivePayment_special_clamped (amount pps esc ed : ℚ)
    (h1 : 0 < esc) (h2 : 0 < ed) :
    (computeEffectivePayment amount pps true esc ed).effectiveAmount =
      max 0 (amount - esc * (pps / 365) * ed) ∧
    0 ≤ (computeEffectivePayment amount pps true esc ed).effectiveAmount ∧
    dialogEffectiveAmount amount pps true esc ed =
      (computeEffectivePayment amount pps true esc ed).effectiveAmount := by
  refine ⟨?_, ?_, ?_⟩
  · simp [computeEffectivePayment, h1.ne', h2.ne']
  · simp [computeEffectivePayment, h1.ne', h2.ne']
  · simp [computeEffectivePayment, dialogEffectiveAmount, h1.ne', h2.ne']

/-- Witness for C3 at the spec scenario amount = 10000,
pricePerStudent = 365, excessStudentCount = 5, excessDays = 10. -/
theorem computeEffectivePayment_special_clamped_witness :
    (0 : ℚ) < 5 ∧ (0 : ℚ) < 10 ∧
    ((computeEffectivePayment 10000 365 true 5 10).effectiveAmount =
        max 0 (10000 - 5 * ((365 : ℚ) / 365) * 10) ∧
      0 ≤ (computeEffectivePayment 10000 365 true 5 10).effectiveAmount ∧
      dialogEffectiveAmount 10000 365 true 5 10 =
        (computeEffectivePayment 10000 365 true 5 10).effectiveAmount) :=
  ⟨by norm_num, by norm_num,
    computeEffectivePayment_special_clamped 10000 365 5 10 (by norm_num) (by norm_num)⟩

/-- Claim C4: when the special-case flag is off the effective amount is the
raw amount for arbitrary excess values, and even with the flag on a zero
excessStudentCount or a zero excessDays leaves the amount unchanged. -/
theorem computeEffectivePayment_passthrough (amount pps x y : ℚ) :
    (computeEffectivePayment amount pps false x y).effectiveAmount = amount ∧
    (computeEffectivePayment amount pps true 0 y).effectiveAmount = amount ∧
    (computeEffectivePayment amount pps true x 0).effectiveAmount = amount := by
  refine ⟨?_, ?_, ?_⟩ <;> simp [computeEffectivePayment]

/-- Claim C5: recording a payment accumulates the effective (post-deduction)
amount into advance_paid, both when a billing record exists and when one
is created, while the appended payment log stores the raw amount. -/
theorem recordPayment_credits_effective_logs_raw (bi : BillingInfo)
    (data : PaymentFormValues) (today : ℚ) :
    (recordPayment (some bi) data today).1.advance_paid =
      some (bi.advance_paid.getD 0 + effectiveAmountOf data) ∧
    (recordPayment none data today).1.advance_paid = some (effectiveAmountOf data) ∧
    (recordPayment (some bi) data today).2.amount = data.amount ∧
    (recordPayment none data today).2.amount = data.amount :=
  ⟨rfl, rfl, rfl, rfl⟩

/-- Claim C6: a non-special-case payment against an existing billing record
leaves quoted_price (and total_installments) unchanged. -/
theorem recordPayment_nonspecial_preserves_quoted_price (bi : BillingInfo)
    (data : PaymentFormValues) (today : ℚ) (h : data.specialCase = false) :
    (recordPayment (some bi) data today).1.quoted_price = bi.quoted_price ∧
    (recordPayment (some bi) data today).1.total_installments = bi.total_installments := by
  simp [recordPayment, h]

/-- Witness for C6 on the sample billing record and sample payment. -/
theorem recordPayment_nonspecial_preserves_quoted_price_witness :
    samplePayment.specialCase = false ∧
    ((recordPayment (some sampleBilling) samplePayment 5).1.quoted_price =
        sampleBilling.quoted_price ∧
      (recordPayment (some sampleBilling) samplePayment 5).1.total_installments =
        sampleBilling.total_installments) :=
  ⟨rfl, recordPayment_nonspecial_preserves_quoted_price sampleBilling samplePayment 5 rfl⟩

/-- Claim C7: recording a payment with no existing billing record creates
one with quoted_price = pricePerStudent, advance_paid = the effective
amount and advance_paid_date = today. -/
theorem recordPayment_creates_billing_info (data : PaymentFormValues) (today : ℚ) :
    (recordPayment none data today).1.quoted_price = data.pricePerStudent ∧
    (recordPayment none data today).1.advance_paid = some (effectiveAmountOf data) ∧
    (recordPayment none data today).1.advance_paid_date = some today :=
  ⟨rfl, rfl, rfl⟩

/-- Claim C8: for non-negative studentCount and quotedPrice the checked
validity computation never hits a division by zero (no Infinity or NaN,
no raised error), and a zero quotedPrice or studentCount yields
daysOfValidity = 0 and validUntilDate = advancePaidDate. -/
theorem computeValidity_total_no_nan (sc qp ap d t : ℚ) (hsc : 0 ≤ sc) (hqp : 0 ≤ qp) :
    computeValidityChecked sc qp ap d t = some (computeValidity sc qp ap d t) ∧
    (qp = 0 ∨ sc = 0 →
      (computeValidity sc qp ap d t).daysOfValidity = 0 ∧
      (computeValidity sc qp ap d t).validUntilDate = d) := by
  refine ⟨computeValidityChecked_eq_some sc qp ap d t, fun h => ?_⟩
  have hz : sc * qp / 365 = 0 := by
    rcases h with h | h <;> simp [h]
  have hd : (computeValidity sc qp ap d t).daysOfValidity = 0 :=
    daysOfValidity_of_nonpos sc qp ap d t (by rw [hz]; norm_num)
  refine ⟨hd, ?_⟩
  have hv : (computeValidity sc qp ap d t).validUntilDate =
      d + ((computeValidity sc qp ap d t).daysOfValidity : ℚ) := rfl
  rw [hv, hd]
  norm_num

/-- Witness for C8 at studentCount = 0, quotedPrice = 365. -/
theorem computeValidity_total_no_nan_witness :
    0 ≤ (0 : ℚ) ∧ 0 ≤ (365 : ℚ) ∧
    (computeValidityChecked 0 365 100 7 2 = some (computeValidity 0 365 100 7 2) ∧
      ((365 : ℚ) = 0 ∨ (0 : ℚ) = 0 →
        (computeValidity 0 365 100 7 2).daysOfValidity = 0 ∧
        (computeValidity 0 365 100 7 2).validUntilDate = 7)) :=
  ⟨by norm_num, by norm_num,
    computeValidity_total_no_nan 0 365 100 7 2 (by norm_num) (by norm_num)⟩

/-- Claim C9, counterexample: at the negative input studentCount = -1 (with
quotedPrice = 365 and advancePaid = 365) the calculator does not reject
the input; the checked computation returns an ordinary result, not an
error. -/
theorem computeValidityChecked_negative_input_accepted :
    computeValidityChecked (-1) 365 365 0 0 =
      some { daysOfValidity := 0, validUntilDate := 0, daysRemaining := 0,
             paymentStatus := "critical" } ∧
    computeValidityChecked (-1) 365 365 0 0 ≠ none := by
  have h1 : computeValidityChecked (-1) 365 365 0 0 =
      some { daysOfValidity := 0, validUntilDate := 0, daysRemaining := 0,
             paymentStatus := "critical" } := by
    norm_num [computeValidityChecked, qdivChecked, statusOf]
  exact ⟨h1, by rw [h1]; exact Option.some_ne_none _⟩

/-- Claim C9, amended: the calculator performs no input validation and never
rejects negative inputs; the checked computation always succeeds, and a
negative studentCount with a non-negative quotedPrice simply yields
daysOfValidity = 0 through the pricePerDay > 0 guard. -/
theorem computeValidity_accepts_negative_inputs (sc qp ap d t : ℚ) :
    computeValidityChecked sc qp ap d t = some (computeValidity sc qp ap d t) ∧
    (sc < 0 → 0 ≤ qp → (computeValidity sc qp ap d t).daysOfValidity = 0) := by
  refine ⟨computeValidityChecked_eq_some sc qp ap d t, fun h1 h2 => ?_⟩
  refine daysOfValidity_of_nonpos sc qp ap d t ?_
  have hsp : sc * qp ≤ 0 := mul_nonpos_of_nonpos_of_nonneg h1.le h2
  intro hc
  nlinarith

/-- Witness for the amended C9 at studentCount = -1. -/
theorem computeValidity_accepts_negative_inputs_witness :
    computeValidityChecked (-1) 365 365 0 0 = some (computeValidity (-1) 365 365 0 0) ∧
    ((-1 : ℚ) < 0 → 0 ≤ (365 : ℚ) → (computeValidity (-1) 365 365 0 0).daysOfValidity = 0) :=
  computeValidity_accepts_negative_inputs (-1) 365 365 0 0

/-- Claim C10: a payment with the special-case flag set but a zero
excessStudentCount or excessDays deducts nothing (the full raw amount is
credited) and still overwrites quoted_price with pricePerStudent. -/
theorem recordPayment_special_flag_alone_overwrites_price (bi : BillingInfo)
    (data : PaymentFormValues) (today : ℚ) (hflag : data.specialCase = true)
    (hz : data.excessStudentCount = 0 ∨ data.excessDays = 0) :
    (recordPayment (some bi) data today).1.advance_paid =
      some (bi.advance_paid.getD 0 + data.amount) ∧
    (recordPayment (some bi) data today).1.quoted_price = data.pricePerStudent := by
  have he : effectiveAmountOf data = data.amount := by
    rcases hz with h | h <;> simp [effectiveAmountOf, computeEffectivePayment, h]
  constructor
  · show some (bi.advance_paid.getD 0 + effectiveAmountOf data) = _
    rw [he]
  · simp [recordPayment, hflag]

/-- Witness for C10 on the sample special-case payment with zero excess
student count. -/
theorem recordPayment_special_flag_alone_overwrites_price_witness :
    sampleSpecialPayment.specialCase = true ∧
    (sampleSpecialPayment.excessStudentCount = 0 ∨ sampleSpecialPayment.excessDays = 0) ∧
    ((recordPayment (some sampleBilling) sampleSpecialPayment 5).1.advance_paid =
        some (sampleBilling.advance_paid.getD 0 + sampleSpecialPayment.amount) ∧
      (recordPayment (some sampleBilling) sampleSpecialPayment 5).1.quoted_price =
        sampleSpecialPayment.pricePerStudent) :=
  ⟨rfl, Or.inl rfl,
    recordPayment_special_flag_alone_overwrites_price sampleBilling sampleSpecialPayment 5
      rfl (Or.inl rfl)⟩

end Billeasy
